import Mathlib

/-!
Verification development for the dvgrab GUI capture core (src/dvgrab.py).

The Python source is shallowly embedded: pure helpers become Lean functions,
and the filesystem / PATH / process environment consulted by the code is made
an explicit `Env` record (file existence, PATH lookup, path resolution, and
whether `subprocess.Popen` raises).  Stateful flows (`start_capture`,
`copy_command`) become functions from the explicit inputs (config values,
allocation state, listing of the base directory's children) to a result record
that also reports the filesystem side effects (directories created, state
persisted, spawn attempted).
-/

set_option autoImplicit false

/-- The allocation state `next_index_by_dir`: a mapping from (resolved) base
directory path to the next candidate index (dvgrab.py line 106).  Modelled as
an association list with Python-dict update semantics. -/
abbrev AllocState := List (String × Nat)

/-- Lookup in the `next_index_by_dir` mapping (`next_map.get(key, ...)`). -/
def lookupState : AllocState → String → Option Nat
  | [], _ => none
  | e :: rest, key => if e.1 = key then some e.2 else lookupState rest key

/-- Update of the `next_index_by_dir` mapping (`next_map[key] = ...`):
replaces the binding for `key` if present, otherwise appends it. -/
def setState : AllocState → String → Nat → AllocState
  | [], key, v => [(key, v)]
  | e :: rest, key, v => if e.1 = key then (key, v) :: rest else e :: setState rest key v

/-- `int(next_map.get(key, 1))` from dvgrab.py line 122: the persisted next
index for a base directory, defaulting to 1 when the key is absent. -/
def counterOf (state : AllocState) (key : String) : Nat :=
  (lookupState state key).getD 1

/-- Whitespace test used to model Python's `str.strip` / `str.rstrip`. -/
def isWS (c : Char) : Bool := c.isWhitespace

/-- Python `str.rstrip()` on a list of characters. -/
def pyRstrip (l : List Char) : List Char :=
  (l.reverse.dropWhile isWS).reverse

/-- Python `str.strip()` on a list of characters. -/
def pyStripL (l : List Char) : List Char :=
  pyRstrip (l.dropWhile isWS)

/-- Python `str.strip()` on a `String`. -/
def pyStripStr (s : String) : String :=
  String.mk (pyStripL s.toList)

/-- Digit-list value: folds decimal digits into a natural number. -/
def digitsToNat (l : List Char) : Nat :=
  l.foldl (fun a c => 10 * a + (c.toNat - ('0').toNat)) 0

/-- A nonempty, all-decimal-digit character list parses to its value;
anything else fails.  This is the numeral core shared by the model of
Python `int()` and of `str.isdigit()`. -/
def digitsVal (l : List Char) : Option Nat :=
  if l ≠ [] ∧ l.all Char.isDigit then some (digitsToNat l) else none

/-- Python `int(str(s).strip())` as used by `_as_int` (dvgrab.py line 695):
strips surrounding whitespace, accepts an optional sign followed by decimal
digits.  (Python additionally accepts underscore digit separators; no claim
depends on such inputs.)  Returns `none` when parsing fails. -/
def pyIntOfString (s : String) : Option Int :=
  match pyStripL s.toList with
  | '-' :: rest => (digitsVal rest).map (fun n => -(n : Int))
  | '+' :: rest => (digitsVal rest).map (fun n => (n : Int))
  | t => (digitsVal t).map (fun n => (n : Int))

/-- `_as_int` (dvgrab.py lines 693-698): parse the string as an integer and
fall back to `default` when parsing raises. -/
def as_int (s : String) (default : Int) : Int :=
  (pyIntOfString s).getD default

/-- The raw text-entry contents feeding the numeric fields of
`App._gather_values` (dvgrab.py lines 489-498). -/
structure RawNumeric where
  autosplit_seconds : String
  size_mb : String
  csize_mb : String
  cmincutsize_mb : String
  frames_per_file : String
  every_nth : String
deriving DecidableEq

/-- The numeric fields produced by `App._gather_values`. -/
structure GatheredNumeric where
  autosplit_seconds : Int
  size_mb : Int
  csize_mb : Int
  cmincutsize_mb : Int
  frames_per_file : Int
  every_nth : Int
deriving DecidableEq

/-- The numeric portion of `App._gather_values` (dvgrab.py lines 489-498):
each field goes through `_as_int` with default 0, except frame decimation
(`every_nth`) whose default is 1. -/
def gather_numeric (r : RawNumeric) : GatheredNumeric :=
  { autosplit_seconds := as_int r.autosplit_seconds 0
    size_mb := as_int r.size_mb 0
    csize_mb := as_int r.csize_mb 0
    cmincutsize_mb := as_int r.cmincutsize_mb 0
    frames_per_file := as_int r.frames_per_file 0
    every_nth := as_int r.every_nth 1 }

/-- `str(Path(s))` for the strings this program produces: the empty string
normalizes to `"."` (Python `Path("")` is `Path(".")`); other inputs, already
in normalized form, are unchanged. -/
def pyPathStr (s : String) : String :=
  if s = "" then "." else s

/-- Truthiness of a Python `pathlib.Path` object.  `PurePath` defines neither
a bool conversion nor a length, so `bool(Path(x))` is `True` for every `x`
(including `Path("")`, which is `Path(".")`).  Used by the dead check
`if not base_dir:` at dvgrab.py line 568. -/
def pyPathTruthy (_ : String) : Bool := true

/-- `(Path(d) / nm).as_posix()` for the normalized directory strings this
program passes around: joining onto `""`/`"."` yields just the name (those
paths have no components), a directory already ending in a slash gets the
name appended directly, and otherwise a `"/"` separator is inserted. -/
def pyPathJoin (d nm : String) : String :=
  if d = "" ∨ d = "." then nm
  else if d.toList.getLast? = some '/' then d ++ nm
  else d ++ "/" ++ nm

/-- Strip `pre` from the front of `nm`; `none` if `pre` is not a prefix. -/
def stripFront : List Char → List Char → Option (List Char)
  | [], nm => some nm
  | _ :: _, [] => none
  | p :: ps, c :: cs => if p = c then stripFront ps cs else none

/-- The regex match `^{re.escape(pre)}(\d+)$` of dvgrab.py line 126: the name
must be exactly `pre` followed by one or more decimal digits; returns the
digits' value. -/
def matchIdx (pre nm : String) : Option Nat :=
  match stripFront pre.toList nm.toList with
  | some rest => digitsVal rest
  | none => none

/-- The scan loop of dvgrab.py lines 127-136: the greatest `N` over immediate
children that are directories whose name matches `pre` + digits, 0 if none.
Children are modelled as `(name, is_dir)` pairs. -/
def maxExisting (children : List (String × Bool)) (pre : String) : Nat :=
  children.foldl
    (fun acc c =>
      if c.2 then
        match matchIdx pre c.1 with
        | some n => max acc n
        | none => acc
      else acc)
    0

/-- Result of one allocation: the candidate directory path, the chosen
index, and the updated `next_index_by_dir` mapping. -/
structure AllocResult where
  candidate : String
  idx : Nat
  state : AllocState
deriving DecidableEq

/-- `find_next_subfolder` (dvgrab.py lines 116-144).  `key` is the resolved
base directory string (`str(base_dir.expanduser().resolve())`); `children`
lists the base directory's immediate children.  Mutation of `cfg` in the
source becomes the returned `state`.  (The function also creates the base
directory on disk; callers below account for that side effect.) -/
def find_next_subfolder (children : List (String × Bool)) (pre : String)
    (state : AllocState) (key : String) : AllocResult :=
  let start_idx := counterOf state key
  let max_found := maxExisting children pre
  let idx := max start_idx (max_found + 1)
  { candidate := pyPathJoin key (pre ++ toString idx)
    idx := idx
    state := setState state key (idx + 1) }

/-- The execution environment the code consults: `shutil.which` (PATH lookup,
returning a non-empty path or nothing), `Path(...).exists()`,
`Path.expanduser().resolve()`, and whether `subprocess.Popen` raises. -/
structure Env where
  which : String → Option String
  pathExists : String → Bool
  resolve : String → String
  popenRaises : Bool

/-- `"/" in s` on a Python string. -/
def hasSlash (s : String) : Bool :=
  s.toList.contains '/'

/-- `which_dvgrab` (dvgrab.py lines 146-151): a non-empty preference that
exists on disk or contains a path separator is used verbatim; otherwise PATH
is searched for it (or for `"dvgrab"` when empty), falling back to the
preference itself and finally to `"dvgrab"`. -/
def which_dvgrab (env : Env) (pathPref : String) : String :=
  if pathPref ≠ "" ∧ (env.pathExists pathPref = true ∨ hasSlash pathPref = true) then
    pathPref
  else
    match env.which (if pathPref = "" then "dvgrab" else pathPref) with
    | some found => found
    | none => if pathPref ≠ "" then pathPref else "dvgrab"

/-- The GUI state snapshot produced by `App._gather_values` (dvgrab.py lines
468-508), restricted to the fields the capture core reads.  The subfolder
name stem field is called `subfolderPre` here (its source name cannot be used
as a Lean field name in this development). -/
structure Values where
  output_dir : String
  subfolderPre : String
  filename_scheme : String
  format : String
  showstatus : Bool
  autosplit : Bool
  autosplit_seconds : Int
  size_mb : Int
  csize_mb : Int
  cmincutsize_mb : Int
  rewind : Bool
  noavc : Bool
  recordonly : Bool
  opendml : Bool
  frames_per_file : Int
  every_nth : Int
  card : String
  channel : String
  guid : String
  duration : String
  use_v4l2 : Bool
  v4l2_input : String
  dvgrab_path : String

/-- Format rule (dvgrab.py lines 165-172): a recognized format emits
`-format` plus the token; anything else (including empty) emits nothing. -/
def fmtTokens (fmt : String) : List String :=
  if fmt = "mpeg2" then ["-format", "mpeg2"]
  else if fmt = "dv2" ∨ fmt = "dv1" ∨ fmt = "raw" ∨ fmt = "qt" ∨ fmt = "mov" ∨ fmt = "avi" then
    ["-format", fmt]
  else []

/-- Filename-scheme rule (dvgrab.py lines 175-181). -/
def schemeTokens (scheme : String) : List String :=
  if scheme = "timestamp" then ["-timestamp"]
  else if scheme = "timecode" then ["-timecode"]
  else if scheme = "timesys" then ["-timesys"]
  else []

/-- Max-file-size rule (dvgrab.py lines 184-186): emitted when the stored
value is non-negative (the sentinel 0 included). -/
def sizeTokens (n : Int) : List String :=
  if 0 ≤ n then ["-size", toString n] else []

/-- Frames-per-file rule (dvgrab.py lines 187-189). -/
def framesTokens (n : Int) : List String :=
  if 0 < n then ["-frames", toString n] else []

/-- Autosplit rule (dvgrab.py lines 190-196). -/
def autosplitTokens (enabled : Bool) (secs : Int) : List String :=
  if enabled then
    if 0 < secs then ["-autosplit=" ++ toString secs] else ["-autosplit"]
  else []

/-- Collection-size rule (dvgrab.py lines 197-199). -/
def csizeTokens (n : Int) : List String :=
  if 0 < n then ["-csize", toString n] else []

/-- Collection-cut-ahead rule (dvgrab.py lines 200-202). -/
def cmincutTokens (n : Int) : List String :=
  if 0 < n then ["-cmincutsize", toString n] else []

/-- Behavior-flag rules (dvgrab.py lines 205-214), in source order;
`-opendml` additionally requires the dv2 format. -/
def flagTokens (v : Values) : List String :=
  (if v.showstatus then ["-showstatus"] else [])
    ++ (if v.rewind then ["-rewind"] else [])
    ++ (if v.noavc then ["-noavc"] else [])
    ++ (if v.recordonly then ["-recordonly"] else [])
    ++ (if v.opendml ∧ v.format = "dv2" then ["-opendml"] else [])

/-- Python `str.isdigit()`: nonempty and all decimal digits. -/
def isAllDigits (s : String) : Bool :=
  !s.toList.isEmpty && s.toList.all Char.isDigit

/-- Card rule (dvgrab.py lines 217-219): stripped and emitted only when
all-digits. -/
def cardTokens (card : String) : List String :=
  let c := pyStripStr card
  if isAllDigits c = true then ["-card", c] else []

/-- Channel rule (dvgrab.py lines 220-222). -/
def channelTokens (ch : String) : List String :=
  let c := pyStripStr ch
  if isAllDigits c = true then ["-channel", c] else []

/-- GUID rule (dvgrab.py lines 223-225): passed through verbatim when the
stripped value is non-empty. -/
def guidTokens (g : String) : List String :=
  let s := pyStripStr g
  if s ≠ "" then ["-guid", s] else []

/-- V4L2 rule (dvgrab.py lines 228-232): selector token, then the input
device only when non-empty. -/
def v4l2Tokens (use : Bool) (inp : String) : List String :=
  if use then
    "-v4l2" :: (let i := pyStripStr inp; if i ≠ "" then ["-input", i] else [])
  else []

/-- Duration rule (dvgrab.py lines 235-237). -/
def durationTokens (d : String) : List String :=
  let s := pyStripStr d
  if s ≠ "" then ["-duration", s] else []

/-- Decimation rule (dvgrab.py lines 240-242): emitted only when the value
exceeds 1 (a stored 0 is first coerced to 1 by `or 1`). -/
def everyTokens (n : Int) : List String :=
  if 1 < n then ["-every", toString n] else []

/-- `build_dvgrab_cmd` (dvgrab.py lines 155-247): the resolved executable,
then the option rules in source order, and last the output-path token
`capture_dir / "clip-"`. -/
def build_dvgrab_cmd (env : Env) (v : Values) (capture_dir : String) : List String :=
  which_dvgrab env v.dvgrab_path ::
    (fmtTokens v.format ++ schemeTokens v.filename_scheme ++ sizeTokens v.size_mb
      ++ framesTokens v.frames_per_file ++ autosplitTokens v.autosplit v.autosplit_seconds
      ++ csizeTokens v.csize_mb ++ cmincutTokens v.cmincutsize_mb ++ flagTokens v
      ++ cardTokens v.card ++ channelTokens v.channel ++ guidTokens v.guid
      ++ v4l2Tokens v.use_v4l2 v.v4l2_input ++ durationTokens v.duration
      ++ everyTokens v.every_nth ++ [pyPathJoin capture_dir "clip-"])

/-- Result of `App.copy_command` (dvgrab.py lines 529-541): the command that
was placed on the clipboard and the allocation state after the call (the
source passes `self.cfg` into `find_next_subfolder`, which updates it). -/
structure CopyResult where
  cmd : List String
  state : AllocState

/-- `App.copy_command` (dvgrab.py lines 529-541): gathers values, allocates a
candidate subfolder via `find_next_subfolder` on the live `self.cfg`, and
builds the command for it.  `save_config` is not called. -/
def copy_command (env : Env) (v : Values) (children : List (String × Bool))
    (state : AllocState) : CopyResult :=
  let key := env.resolve (pyPathStr v.output_dir)
  let a := find_next_subfolder children v.subfolderPre state key
  { cmd := build_dvgrab_cmd env v a.candidate, state := a.state }

/-- Outcome of one `App.start_capture` call. -/
inductive StartOutcome where
  | dvgrabNotFound
  | configError
  | spawnFailed
  | started
deriving DecidableEq

/-- Observable effects of one `App.start_capture` call: the outcome, the
in-memory allocation state afterwards, the directories created on disk (in
creation order), the allocation state persisted by `save_config` (if it was
called), and whether `subprocess.Popen` was attempted. -/
structure StartResult where
  outcome : StartOutcome
  state : AllocState
  createdDirs : List String
  saved : Option AllocState
  spawnAttempted : Bool
deriving DecidableEq

/-- The tail of `App.start_capture` after its two validation checks
(dvgrab.py lines 571-595): allocate the subfolder (which also creates the
base directory), create the subfolder, persist the updated state with
`save_config`, build the command, then attempt `Popen` — which either raises
(caught: the error is shown and the method returns) or starts the session. -/
def allocAndSpawn (env : Env) (v : Values) (children : List (String × Bool))
    (state : AllocState) : StartResult :=
  let key := env.resolve (pyPathStr v.output_dir)
  let a := find_next_subfolder children v.subfolderPre state key
  if env.popenRaises = true then
    { outcome := .spawnFailed, state := a.state, createdDirs := [key, a.candidate]
      saved := some a.state, spawnAttempted := true }
  else
    { outcome := .started, state := a.state, createdDirs := [key, a.candidate]
      saved := some a.state, spawnAttempted := true }

/-- `App.start_capture` (dvgrab.py lines 555-601) with no session already
running.  First the executable pre-check (lines 561-565): if `shutil.which`
fails on the resolved path and the path does not exist, the method errors out
before any allocation.  Then the output-directory check (lines 567-570),
which tests the truthiness of a `Path` object.  Only then allocation,
directory creation, persistence, and the spawn attempt. -/
def start_capture (env : Env) (v : Values) (children : List (String × Bool))
    (state : AllocState) : StartResult :=
  if env.which (which_dvgrab env v.dvgrab_path) = none
      ∧ env.pathExists (which_dvgrab env v.dvgrab_path) = false then
    { outcome := .dvgrabNotFound, state := state, createdDirs := []
      saved := none, spawnAttempted := false }
  else if pyPathTruthy (pyPathStr v.output_dir) = false then
    { outcome := .configError, state := state, createdDirs := []
      saved := none, spawnAttempted := false }
  else
    allocAndSpawn env v children state

/-- Split a character list on `'\r'`, like Python `line.split("\r")`:
separators delimit (possibly empty) fragments. -/
def splitCR : List Char → List (List Char)
  | [] => [[]]
  | c :: rest =>
    if c = '\r' then [] :: splitCR rest
    else
      match splitCR rest with
      | [] => [[c]]
      | q :: qs => (c :: q) :: qs

/-- Blankness test modelling the falsiness of `p.strip()` in
`if p.strip():` — true exactly when every character is whitespace. -/
def pyIsBlank (l : List Char) : Bool :=
  l.all isWS

/-- The per-line body of `App._read_stream` (dvgrab.py lines 635-644): a raw
line containing a carriage return is split on `"\r"`, blank fragments are
dropped, and each surviving fragment is enqueued right-stripped; a line
without a carriage return is enqueued right-stripped as-is.  The result is
the list of log lines enqueued for this raw line, in order. -/
def processLine (line : List Char) : List (List Char) :=
  if '\r' ∈ line then
    ((splitCR line).filter (fun p => !(pyIsBlank p))).map pyRstrip
  else [pyRstrip line]

/-- The spec's sample stream chunk, delivered by `readline` as one raw line
(it contains no newline). -/
def crChunk : List Char :=
  ("Capturing... 00:01\rCapturing... 00:02\r").toList

/-- First expected log line for `crChunk`. -/
def crLine1 : List Char :=
  ("Capturing... 00:01").toList

/-- Second expected log line for `crChunk`. -/
def crLine2 : List Char :=
  ("Capturing... 00:02").toList

/-- A GUI snapshot with every field at its `load_config` default, the output
base at `/base`, and the executable preference `"dvgrab"`. -/
def sampleValues : Values :=
  { output_dir := "/base"
    subfolderPre := "tape"
    filename_scheme := "timestamp"
    format := "dv2"
    showstatus := true
    autosplit := false
    autosplit_seconds := 0
    size_mb := 0
    csize_mb := 0
    cmincutsize_mb := 0
    rewind := false
    noavc := false
    recordonly := false
    opendml := true
    frames_per_file := 0
    every_nth := 1
    card := ""
    channel := ""
    guid := ""
    duration := ""
    use_v4l2 := false
    v4l2_input := "/dev/video0"
    dvgrab_path := "dvgrab" }

/-- `sampleValues` with a negative stored max-file-size, as produced by
`_gather_values` when the size entry reads `-1`. -/
def negSizeValues : Values :=
  { sampleValues with size_mb := -1 }

/-- `sampleValues` with an empty output directory entry. -/
def emptyOutValues : Values :=
  { sampleValues with output_dir := "" }

/-- An environment where PATH lookup finds dvgrab at `/usr/bin/dvgrab`, no
probed path exists as a file, every path resolves to `/base`, and `Popen`
succeeds. -/
def envOk : Env :=
  { which := fun _ => some "/usr/bin/dvgrab"
    pathExists := fun _ => false
    resolve := fun _ => "/base"
    popenRaises := false }

/-- An environment where PATH lookup finds nothing and no probed path
exists. -/
def envNone : Env :=
  { which := fun _ => none
    pathExists := fun _ => false
    resolve := fun _ => "/base"
    popenRaises := false }

/-- `envOk` except that `subprocess.Popen` raises. -/
def envSpawnFail : Env :=
  { envOk with popenRaises := true }

/-- The raw numeric entries with `-5` typed into the max-file-size field and
the other fields at their defaults. -/
def rawNeg : RawNumeric :=
  { autosplit_seconds := "0", size_mb := "-5", csize_mb := "0"
    cmincutsize_mb := "0", frames_per_file := "0", every_nth := "1" }

/-- Looking up a key right after setting it yields the value just stored. -/
theorem lookup_setState_self (s : AllocState) (k : String) (v : Nat) :
    lookupState (setState s k v) k = some v := by
  induction s with
  | nil => simp [setState, lookupState]
  | cons e rest ih =>
    by_cases h : e.1 = k
    · simp [setState, lookupState, h]
    · simp [setState, lookupState, h, ih]

/-- Right-stripping only removes characters. -/
theorem mem_pyRstrip {a : Char} {l : List Char} (h : a ∈ pyRstrip l) : a ∈ l := by
  unfold pyRstrip at h
  rw [List.mem_reverse] at h
  exact List.mem_reverse.mp (List.dropWhile_subset isWS h)

/-- No fragment produced by splitting on carriage returns contains one. -/
theorem splitCR_no_cr : ∀ (l : List Char) (p : List Char), p ∈ splitCR l → '\r' ∉ p := by
  intro l
  induction l with
  | nil =>
    intro p hp
    simp only [splitCR, List.mem_singleton] at hp
    simp [hp]
  | cons c rest ih =>
    intro p hp
    simp only [splitCR] at hp
    by_cases hc : c = '\r'
    · rw [if_pos hc] at hp
      rcases List.mem_cons.mp hp with h1 | h2
      · subst h1; simp
      · exact ih p h2
    · rw [if_neg hc] at hp
      cases hsp : splitCR rest with
      | nil =>
        rw [hsp] at hp
        simp only [List.mem_singleton] at hp
        subst hp
        simp only [List.mem_singleton]
        intro h3
        exact hc h3.symm
      | cons q qs =>
        rw [hsp] at hp
        simp only at hp
        rcases List.mem_cons.mp hp with h1 | h2
        · subst h1
          intro hmem
          rcases List.mem_cons.mp hmem with h3 | h4
          · exact hc h3.symm
          · exact ih q (by rw [hsp]; exact List.mem_cons_self q qs) h4
        · exact ih p (by rw [hsp]; exact List.mem_cons_of_mem q h2)

/-- C1: the claim that preview-mode allocation (`App.copy_command`) leaves
`next_index_by_dir` unchanged fails on the code: `copy_command` passes the
live `self.cfg` into `find_next_subfolder`, which stores `idx + 1` into it.
On a base with no state entry and no children, the state goes from empty to
`[(key, 2)]`, and a subsequent real allocation returns index 2 instead of
the 1 it would have returned — the preview affects future allocations. -/
theorem preview_mutates_alloc_state :
    (copy_command envOk sampleValues [] []).state = [("/base", 2)]
      ∧ ¬ ((copy_command envOk sampleValues [] []).state = ([] : AllocState))
      ∧ ¬ ((find_next_subfolder [] "tape" (copy_command envOk sampleValues [] []).state
              "/base").idx
            = (find_next_subfolder [] "tape" ([] : AllocState) "/base").idx) := by
  decide

/-- C2 (amended): `build_dvgrab_cmd` consults the environment (filesystem
existence and PATH lookup, via `which_dvgrab`) only to produce its first
token; every token after the first is identical across any two environments
for the same config values and target directory. -/
theorem buildargs_tail_env_independent (e e2 : Env) (v : Values) (capture_dir : String) :
    (build_dvgrab_cmd e v capture_dir).drop 1
      = (build_dvgrab_cmd e2 v capture_dir).drop 1 := rfl

/-- C2 counterexample: the claim that `build_dvgrab_cmd` never depends on the
filesystem or PATH is false: with identical config values and target
directory, an environment where PATH lookup finds dvgrab and one where it
does not yield different argument vectors (different executable tokens). -/
theorem buildargs_env_dependent :
    ¬ (build_dvgrab_cmd envOk sampleValues "/base/tape1"
        = build_dvgrab_cmd envNone sampleValues "/base/tape1") := by
  decide

/-- C3 (amended): `_as_int` passes through any input that parses as an
integer — negative values included — and substitutes the default only when
parsing fails; `_gather_values` applies it with default 0 (1 for frame
decimation), so negative inputs are stored verbatim, not coerced. -/
theorem as_int_passthrough (s : String) (d : Int) (r : RawNumeric) :
    (∀ v, pyIntOfString s = some v → as_int s d = v)
      ∧ (pyIntOfString s = none → as_int s d = d)
      ∧ (gather_numeric r).size_mb = as_int r.size_mb 0
      ∧ (gather_numeric r).every_nth = as_int r.every_nth 1 := by
  refine ⟨fun v hv => ?_, fun hn => ?_, rfl, rfl⟩
  · simp [as_int, hv]
  · simp [as_int, hn]

/-- C3 witness: the input `"-5"` parses and is returned unchanged. -/
theorem as_int_passthrough_witness : as_int "-5" 0 = -5 :=
  (as_int_passthrough "-5" 0 rawNeg).1 (-5) (by decide)

/-- C3 counterexample: with `-5` typed into the max-file-size entry, the
gathered value is `-5`, not the claimed default sentinel 0. -/
theorem negative_input_not_coerced :
    (gather_numeric rawNeg).size_mb = -5
      ∧ ¬ ((gather_numeric rawNeg).size_mb = 0) := by
  decide

/-- C4: allocation returns `idx = max(persisted next (default 1),
maxExisting + 1)` where `maxExisting` is the greatest digit suffix over
matching child directories, and updates the state entry for the base
directory to `idx + 1`; with existing children `tape1` and `tape3` and no
state entry, it returns `tape4` and sets the entry to 5. -/
theorem allocate_next_index :
    (∀ (children : List (String × Bool)) (pre : String) (state : AllocState) (key : String),
        (find_next_subfolder children pre state key).idx
            = max ((lookupState state key).getD 1) (maxExisting children pre + 1)
          ∧ lookupState (find_next_subfolder children pre state key).state key
            = some ((find_next_subfolder children pre state key).idx + 1))
      ∧ (find_next_subfolder [("tape1", true), ("tape3", true)] "tape" [] "/base").candidate
          = "/base/tape4"
      ∧ (find_next_subfolder [("tape1", true), ("tape3", true)] "tape" [] "/base").state
          = [("/base", 5)] := by
  refine ⟨fun children pre state key => ⟨rfl, lookup_setState_self state key _⟩,
    by decide, by decide⟩

/-- C5: the claim that an empty base output path is rejected with the
"Choose an output directory" error before any allocation fails on the code:
the check `if not base_dir` tests a `pathlib.Path` object, which is always
truthy (`Path("")` is `Path(".")`), so with an empty output path the capture
still allocates an index, creates directories, and spawns. -/
theorem empty_output_dir_not_rejected :
    pyPathTruthy (pyPathStr "") = true
      ∧ (start_capture envOk emptyOutValues [] []).outcome = StartOutcome.started
      ∧ (start_capture envOk emptyOutValues [] []).createdDirs = ["/base", "/base/tape1"]
      ∧ (start_capture envOk emptyOutValues [] []).state = [("/base", 2)] := by
  decide

/-- C6 (amended): when the configured executable path does not exist and is
not found on the search path, `start_capture` fails its executable pre-check
and returns before allocation: the allocation state is unchanged, nothing is
persisted, no directory is created, and no spawn is attempted. -/
theorem missing_executable_precheck (env : Env) (v : Values)
    (children : List (String × Bool)) (state : AllocState)
    (h1 : env.which (which_dvgrab env v.dvgrab_path) = none)
    (h2 : env.pathExists (which_dvgrab env v.dvgrab_path) = false) :
    start_capture env v children state =
      { outcome := .dvgrabNotFound, state := state, createdDirs := []
        saved := none, spawnAttempted := false } := by
  simp [start_capture, h1, h2]

/-- C6 witness: concrete run of the pre-check failure. -/
theorem missing_executable_precheck_witness :
    start_capture envNone sampleValues [] [] =
      { outcome := .dvgrabNotFound, state := [], createdDirs := []
        saved := none, spawnAttempted := false } :=
  missing_executable_precheck envNone sampleValues [] [] rfl rfl

/-- C6 counterexample: in the claimed scenario (executable nowhere to be
found) the failure is reported with no target directory created at all, so
the claim that the already-created empty target directory is left behind is
false. -/
theorem missing_executable_no_target_dir :
    (start_capture envNone sampleValues [] []).outcome = StartOutcome.dvgrabNotFound
      ∧ (start_capture envNone sampleValues [] []).createdDirs = [] := by
  decide

/-- C7 (amended): the `-size` option followed by the configured value is
emitted whenever the stored max-file-size is non-negative — in particular
always for the sentinel 0 — but a negative stored value (reachable because
`_as_int` does not coerce negatives) suppresses it. -/
theorem size_token_emitted (env : Env) (v : Values) (capture_dir : String)
    (h : 0 ≤ v.size_mb) :
    List.IsInfix ["-size", toString v.size_mb] (build_dvgrab_cmd env v capture_dir) := by
  refine ⟨which_dvgrab env v.dvgrab_path ::
      (fmtTokens v.format ++ schemeTokens v.filename_scheme),
    framesTokens v.frames_per_file ++ autosplitTokens v.autosplit v.autosplit_seconds
      ++ csizeTokens v.csize_mb ++ cmincutTokens v.cmincutsize_mb ++ flagTokens v
      ++ cardTokens v.card ++ channelTokens v.channel ++ guidTokens v.guid
      ++ v4l2Tokens v.use_v4l2 v.v4l2_input ++ durationTokens v.duration
      ++ everyTokens v.every_nth ++ [pyPathJoin capture_dir "clip-"], ?_⟩
  simp [build_dvgrab_cmd, sizeTokens, h, List.append_assoc]

/-- C7 witness: the sentinel 0 is still emitted. -/
theorem size_token_emitted_witness :
    List.IsInfix ["-size", toString sampleValues.size_mb]
      (build_dvgrab_cmd envOk sampleValues "/base/tape1") :=
  size_token_emitted envOk sampleValues "/base/tape1" (by decide)

/-- C7 counterexample: with a stored max-file-size of `-1` the argument
vector contains no `-size` token at all, so unconditional emission over every
values dict is false. -/
theorem size_token_omitted_for_negative :
    ¬ ("-size" ∈ build_dvgrab_cmd envOk negSizeValues "/base/tape1") := by
  decide

/-- C8: a raw stream line containing carriage-return-delimited fragments is
split on carriage returns with each non-blank fragment enqueued as its own
log line: the chunk "Capturing... 00:01\rCapturing... 00:02\r" yields exactly
those two log lines, and no enqueued log line ever contains (in particular,
ends in) a carriage return. -/
theorem cr_split_lines :
    processLine crChunk = [crLine1, crLine2]
      ∧ ∀ (line out : List Char), out ∈ processLine line → '\r' ∉ out := by
  refine ⟨by decide, fun line out h => ?_⟩
  unfold processLine at h
  by_cases hm : '\r' ∈ line
  · rw [if_pos hm] at h
    rcases List.mem_map.mp h with ⟨p, hp, rfl⟩
    intro hcr
    exact splitCR_no_cr line p (List.mem_filter.mp hp).1 (mem_pyRstrip hcr)
  · rw [if_neg hm] at h
    simp only [List.mem_singleton] at h
    subst h
    intro hcr
    exact hm (mem_pyRstrip hcr)

/-- C8 witness: the first fragment of the sample chunk is an enqueued log
line and carries no carriage return. -/
theorem cr_split_lines_witness :
    crLine1 ∈ processLine crChunk ∧ '\r' ∉ crLine1 :=
  ⟨by decide, cr_split_lines.2 crChunk crLine1 (by decide)⟩

/-- C9: for every environment, config values, and target directory, the last
element of the built argument vector is the output-path token — the target
directory joined with the fixed clip-name stem "clip-" — and nothing follows
it. -/
theorem output_token_last (env : Env) (v : Values) (capture_dir : String) :
    (build_dvgrab_cmd env v capture_dir).getLast?
      = some (pyPathJoin capture_dir "clip-") := by
  simp only [build_dvgrab_cmd]
  rw [← List.cons_append]
  exact List.getLast?_concat _

/-- C10: when the spawn attempt fails (`Popen` raises) after the pre-checks
pass, the allocation has already been consumed: the in-memory state carries
`idx + 1` for the base directory, that state was persisted via `save_config`,
and the target directory was created; moreover from any state whose counter
for the base directory is at least `idx + 1` (as it is afterwards), every
later allocation returns an index strictly greater than `idx` and preserves
the bound, so the consumed index is never reused. -/
theorem spawn_failure_consumes_index (env : Env) (v : Values)
    (children : List (String × Bool)) (state : AllocState)
    (h1 : ¬ (env.which (which_dvgrab env v.dvgrab_path) = none
              ∧ env.pathExists (which_dvgrab env v.dvgrab_path) = false))
    (h2 : env.popenRaises = true) :
    let key := env.resolve (pyPathStr v.output_dir)
    let a := find_next_subfolder children v.subfolderPre state key
    let r := start_capture env v children state
    r.outcome = StartOutcome.spawnFailed
      ∧ r.spawnAttempted = true
      ∧ r.state = a.state
      ∧ r.saved = some a.state
      ∧ a.candidate ∈ r.createdDirs
      ∧ lookupState a.state key = some (a.idx + 1)
      ∧ ∀ (s2 : AllocState) (children2 : List (String × Bool)),
          a.idx + 1 ≤ counterOf s2 key →
            a.idx < (find_next_subfolder children2 v.subfolderPre s2 key).idx
              ∧ a.idx + 1
                ≤ counterOf (find_next_subfolder children2 v.subfolderPre s2 key).state key := by
  intro key a r
  have hr : r = ⟨.spawnFailed, a.state, [key, a.candidate], some a.state, true⟩ := by
    show start_capture env v children state = _
    simp [start_capture, allocAndSpawn, h1, h2, pyPathTruthy]
  refine ⟨by rw [hr], by rw [hr], by rw [hr], by rw [hr],
    by rw [hr]; exact List.mem_cons_of_mem key (List.mem_cons_self a.candidate []),
    lookup_setState_self state key _, fun s2 children2 hle => ?_⟩
  have hidx : (find_next_subfolder children2 v.subfolderPre s2 key).idx
      = max (counterOf s2 key) (maxExisting children2 v.subfolderPre + 1) := rfl
  have hge : counterOf s2 key ≤ (find_next_subfolder children2 v.subfolderPre s2 key).idx := by
    rw [hidx]; exact le_max_left _ _
  have hcnt : counterOf (find_next_subfolder children2 v.subfolderPre s2 key).state key
      = (find_next_subfolder children2 v.subfolderPre s2 key).idx + 1 := by
    show (lookupState
        (setState s2 key ((find_next_subfolder children2 v.subfolderPre s2 key).idx + 1))
        key).getD 1 = _
    rw [lookup_setState_self s2 key _]
    rfl
  constructor
  · omega
  · rw [hcnt]; omega

/-- C10 witness: concrete spawn failure after a passing pre-check leaves the
advanced counter persisted. -/
theorem spawn_failure_consumes_index_witness :
    (start_capture envSpawnFail sampleValues [] []).outcome = StartOutcome.spawnFailed
      ∧ (start_capture envSpawnFail sampleValues [] []).saved = some [("/base", 2)] := by
  have h := spawn_failure_consumes_index envSpawnFail sampleValues [] [] (by decide) rfl
  refine ⟨h.1, ?_⟩
  rw [h.2.2.2.1]
  decide
